import Mathlib

/-!
Shallow embedding of the review rating aggregation and consistency engine of
the Natours API: the mongoose review schema (field validation, the unique
index on the pair tour and user, the createdAt default), the
calcAverageRatings static method, and the pre and post hooks around save and
the findOneAnd family of mutations. Persisted stores are lists of records;
numeric ratings are rationals; fallible store operations return Except.
-/

namespace Natours

/-- A persisted review document. Field names follow the mongoose review
schema: review is the text body, rating the numeric rating, tour and user the
ids of the referenced documents, createdAt a timestamp. -/
structure Review where
  id : Nat
  review : String
  rating : Rat
  createdAt : Nat
  tour : Nat
  user : Nat
deriving DecidableEq

/-- Modelled from the spec: the tour document as consumed by this core. The
tour model file is not among the sources; per the spec the tour carries the
two derived aggregate fields ratingsQuantity (default 0) and ratingsAverage
(default 4.5), and otherFields stands for every tour attribute the
aggregator does not own. -/
structure Tour where
  id : Nat
  ratingsQuantity : Nat
  ratingsAverage : Rat
  otherFields : Nat
deriving DecidableEq

/-- The persistent state: the tour store and the review store. -/
structure DB where
  tours : List Tour
  reviews : List Review
deriving DecidableEq

/-- The match stage of the aggregation pipeline in calcAverageRatings: the
reviews whose tour reference equals the given tour id. -/
def reviewsForTour (tourId : Nat) (reviews : List Review) : List Review :=
  reviews.filter (fun r => r.tour == tourId)

/-- The group stage of the pipeline: nRating sums 1 over the matched reviews
and avgRating averages their rating field; the pipeline returns no group at
all when no review matched, which the caller observes as stats.length == 0. -/
def aggregateStats (tourId : Nat) (reviews : List Review) : Option (Nat × Rat) :=
  if (reviewsForTour tourId reviews).length > 0 then
    some ((reviewsForTour tourId reviews).length,
      ((reviewsForTour tourId reviews).map (fun r => r.rating)).sum /
        ((reviewsForTour tourId reviews).length : Rat))
  else
    none

/-- Tour.findByIdAndUpdate restricted to the two aggregate fields: it updates
the tour whose id matches and is a silent no-op when none does (no upsert
option is passed). Document ids are unique in the store, so updating every
match coincides with updating the single matching document. -/
def tourFindByIdAndUpdate (tourId : Nat) (q : Nat) (a : Rat)
    (tours : List Tour) : List Tour :=
  tours.map (fun t =>
    if t.id == tourId then
      { t with ratingsQuantity := q, ratingsAverage := a }
    else t)

/-- The calcAverageRatings static of the review model: run the aggregation
pipeline over the reviews of the given tour and write the result onto the
tour; when the pipeline returns no group, write quantity 0 and the default
average 4.5 instead. -/
def calcAverageRatings (tourId : Nat) (db : DB) : DB :=
  match aggregateStats tourId db.reviews with
  | some (n, avg) => { db with tours := tourFindByIdAndUpdate tourId n avg db.tours }
  | none => { db with tours := tourFindByIdAndUpdate tourId 0 (9 / 2 : Rat) db.tours }

/-- Errors a review store mutation can surface: the duplicate key error of
the unique index, and the TypeError raised by the post findOneAnd hook when
it dereferences an absent pre fetched review. -/
inductive StoreError where
  | duplicateKey
  | nullReference
deriving DecidableEq

/-- The pre findOneAnd hook: clone the pending query and execute the clone as
a findOne, capturing the affected review as it exists before the mutation. -/
def findReview (rid : Nat) (reviews : List Review) : Option Review :=
  reviews.find? (fun r => r.id == rid)

/-- Whether the review store already holds a review with the same pair of
tour and user references, the pair covered by the unique index declared as
reviewSchema.index on tour and user. -/
def hasDuplicate (r : Review) (reviews : List Review) : Bool :=
  reviews.any (fun s => s.tour == r.tour && s.user == r.user)

/-- Saving a new review: the unique index on the pair of tour and user makes
the insert fail with a duplicate key error before anything is written (index
semantics of the underlying store); on success the post save hook runs
calcAverageRatings on the saved review.tour. -/
def createReview (r : Review) (db : DB) : Except StoreError DB :=
  if hasDuplicate r db.reviews then
    Except.error StoreError.duplicateKey
  else
    Except.ok (calcAverageRatings r.tour { db with reviews := db.reviews ++ [r] })

/-- The state after attempting createReview: a failed insert leaves the
store, and hence every aggregate field, unchanged. -/
def runCreateReview (r : Review) (db : DB) : DB :=
  match createReview r db with
  | Except.ok db2 => db2
  | Except.error _ => db

/-- Modelled from the spec: the body of an update request, each present field
replacing the stored one (the update handler passes the request body to
findByIdAndUpdate; that controller file is not among the sources). -/
structure ReviewPatch where
  review : Option String
  rating : Option Rat
  tour : Option Nat
deriving DecidableEq

/-- Apply an update body to a stored review. -/
def applyPatch (p : ReviewPatch) (r : Review) : Review :=
  { r with
    review := p.review.getD r.review
    rating := p.rating.getD r.rating
    tour := p.tour.getD r.tour }

/-- The review store after a findOneAndUpdate mutation commits: the matching
review patched in place. Review ids are unique, so patching every match
coincides with patching the single matching document. -/
def dbAfterUpdate (rid : Nat) (p : ReviewPatch) (db : DB) : DB :=
  { db with reviews := db.reviews.map (fun s => if s.id == rid then applyPatch p s else s) }

/-- The review store after a findOneAndDelete mutation commits: the matching
review removed. -/
def dbAfterDelete (rid : Nat) (db : DB) : DB :=
  { db with reviews := db.reviews.eraseP (fun s => s.id == rid) }

/-- findOneAndUpdate wrapped in the pre and post hooks of the review schema:
the pre hook captures the review via a cloned findOne, the mutation commits,
and the post hook runs calcAverageRatings on the captured this.r.tour. The
post hook dereferences this.r without a null check, so when the pre fetch
matched no review the hook throws a TypeError on null instead of skipping,
and the triggering operation fails. -/
def findOneAndUpdate (rid : Nat) (p : ReviewPatch) (db : DB) : Except StoreError DB :=
  match findReview rid db.reviews with
  | some rev => Except.ok (calcAverageRatings rev.tour (dbAfterUpdate rid p db))
  | none => Except.error StoreError.nullReference

/-- findOneAndDelete wrapped in the pre and post hooks, exactly as
findOneAndUpdate. -/
def findOneAndDelete (rid : Nat) (db : DB) : Except StoreError DB :=
  match findReview rid db.reviews with
  | some rev => Except.ok (calcAverageRatings rev.tour (dbAfterDelete rid db))
  | none => Except.error StoreError.nullReference

/-- A review creation request as it reaches the schema validation boundary,
every field possibly absent. -/
structure ReviewInput where
  review : Option String
  rating : Option Rat
  tour : Option Nat
  user : Option Nat
deriving DecidableEq

/-- The validation the review schema as written actually enforces: user is
the only field spelled required (the review and tour fields carry the
misspelled option rerquired, which the mapper ignores as an unknown option,
and rating carries no required option at all), and a present rating must lie
within min 1 and max 5. -/
def reviewSchemaValidate (i : ReviewInput) : Bool :=
  i.user.isSome &&
  (match i.rating with
   | some x => decide ((1 : Rat) ≤ x) && decide (x ≤ (5 : Rat))
   | none => true)

/-- The schema default for createdAt: the source writes Date.now() with a
call, so Date.now is invoked once when the schema object is built and every
review created without an explicit timestamp receives that fixed schema load
time, whatever its insertion time. -/
def createdAtDefault (schemaLoadTime : Nat) (_insertionTime : Nat) : Nat :=
  schemaLoadTime

/-- Look a tour up by id in the tour store. -/
def lookupTour (tourId : Nat) (db : DB) : Option Tour :=
  db.tours.find? (fun t => t.id == tourId)

/-- Either branch of calcAverageRatings writes some quantity and average onto
the tour with the given id through tourFindByIdAndUpdate and touches nothing
else. -/
theorem calcAverageRatings_shape (tourId : Nat) (db : DB) :
    ∃ q a, calcAverageRatings tourId db =
      { db with tours := tourFindByIdAndUpdate tourId q a db.tours } := by
  unfold calcAverageRatings
  cases h : aggregateStats tourId db.reviews with
  | none => exact ⟨0, 9 / 2, rfl⟩
  | some s => exact ⟨s.1, s.2, rfl⟩

/-- When at least one review matches, the pipeline yields the count and the
mean. -/
theorem aggregateStats_pos (tourId : Nat) (reviews : List Review)
    (h : 0 < (reviewsForTour tourId reviews).length) :
    aggregateStats tourId reviews =
      some ((reviewsForTour tourId reviews).length,
        ((reviewsForTour tourId reviews).map (fun r => r.rating)).sum /
          ((reviewsForTour tourId reviews).length : Rat)) := by
  unfold aggregateStats
  rw [if_pos h]

/-- Claim C1: with at least one review referencing the tour, recomputation
stores the live count in ratingsQuantity and the arithmetic mean of the
matching ratings in ratingsAverage on every tour document carrying that id;
since this holds of an arbitrary store state, it holds in particular of the
state left by the last mutation of any sequence of review mutations. -/
theorem calcAverageRatings_nonempty (tourId : Nat) (db : DB)
    (h : 0 < (reviewsForTour tourId db.reviews).length) :
    ∀ t ∈ (calcAverageRatings tourId db).tours, t.id = tourId →
      t.ratingsQuantity = (reviewsForTour tourId db.reviews).length ∧
      t.ratingsAverage =
        ((reviewsForTour tourId db.reviews).map (fun r => r.rating)).sum /
          ((reviewsForTour tourId db.reviews).length : Rat) := by
  have hc : calcAverageRatings tourId db =
      { db with
        tours :=
          tourFindByIdAndUpdate tourId (reviewsForTour tourId db.reviews).length
            (((reviewsForTour tourId db.reviews).map (fun r => r.rating)).sum /
              ((reviewsForTour tourId db.reviews).length : Rat)) db.tours } := by
    unfold calcAverageRatings
    rw [aggregateStats_pos tourId db.reviews h]
  rw [hc]
  intro t ht hid
  obtain ⟨s, hs_mem, hst⟩ := List.mem_map.mp ht
  by_cases hcase : s.id = tourId
  · rw [if_pos (by simpa using hcase)] at hst
    rw [← hst]
    exact ⟨rfl, rfl⟩
  · rw [if_neg (by simpa using hcase)] at hst
    rw [← hst] at hid
    exact absurd hid hcase

/-- When no review matches, the pipeline yields no group. -/
theorem aggregateStats_empty (tourId : Nat) (reviews : List Review)
    (h : reviewsForTour tourId reviews = []) :
    aggregateStats tourId reviews = none := by
  unfold aggregateStats
  rw [h]
  rfl

/-- Claim C2: with zero reviews referencing the tour, recomputation resets
ratingsQuantity to 0 and ratingsAverage to the default 4.5 on every tour
document carrying that id, regardless of the previous values. -/
theorem calcAverageRatings_empty_default (tourId : Nat) (db : DB)
    (h : reviewsForTour tourId db.reviews = []) :
    ∀ t ∈ (calcAverageRatings tourId db).tours, t.id = tourId →
      t.ratingsQuantity = 0 ∧ t.ratingsAverage = 9 / 2 := by
  have hc : calcAverageRatings tourId db =
      { db with tours := tourFindByIdAndUpdate tourId 0 (9 / 2 : Rat) db.tours } := by
    unfold calcAverageRatings
    rw [aggregateStats_empty tourId db.reviews h]
  rw [hc]
  intro t ht hid
  obtain ⟨s, hs_mem, hst⟩ := List.mem_map.mp ht
  by_cases hcase : s.id = tourId
  · rw [if_pos (by simpa using hcase)] at hst
    rw [← hst]
    exact ⟨rfl, rfl⟩
  · rw [if_neg (by simpa using hcase)] at hst
    rw [← hst] at hid
    exact absurd hid hcase

/-- Claim C9: recomputation for a tour id only rewrites the ratingsQuantity
and ratingsAverage fields of the tour documents carrying that id; the review
store, every other tour document, and every other field (id, otherFields) of
the targeted tour are left unchanged. -/
theorem calcAverageRatings_frame (tourId : Nat) (db : DB) :
    ∃ q a,
      (calcAverageRatings tourId db).reviews = db.reviews ∧
      (calcAverageRatings tourId db).tours =
        db.tours.map (fun t =>
          if t.id == tourId then
            { t with ratingsQuantity := q, ratingsAverage := a }
          else t) := by
  obtain ⟨q, a, h⟩ := calcAverageRatings_shape tourId db
  exact ⟨q, a, by rw [h], by rw [h]; rfl⟩

/-- Concrete store for the C1 witness: one tour with id 1 and two reviews for
it with ratings 4 and 2, whose mean is 3. -/
def dbC1 : DB :=
  { tours := [⟨1, 0, 9 / 2, 37⟩],
    reviews := [⟨1, "a", 4, 0, 1, 10⟩, ⟨2, "b", 2, 0, 1, 11⟩] }

/-- Witness for claim C1 at the concrete store dbC1. -/
theorem calcAverageRatings_nonempty_witness :
    0 < (reviewsForTour 1 dbC1.reviews).length ∧
    ∀ t ∈ (calcAverageRatings 1 dbC1).tours, t.id = 1 →
      t.ratingsQuantity = (reviewsForTour 1 dbC1.reviews).length ∧
      t.ratingsAverage =
        ((reviewsForTour 1 dbC1.reviews).map (fun r => r.rating)).sum /
          ((reviewsForTour 1 dbC1.reviews).length : Rat) :=
  ⟨by decide, calcAverageRatings_nonempty 1 dbC1 (by decide)⟩

/-- Concrete store for the C2 witness: the tour with id 5 holds stale
aggregates, quantity 3 and average 2, and the only review in the store
references a different tour. -/
def dbC2 : DB :=
  { tours := [⟨5, 3, 2, 8⟩], reviews := [⟨1, "a", 4, 0, 6, 10⟩] }

/-- Witness for claim C2 at the concrete store dbC2. -/
theorem calcAverageRatings_empty_default_witness :
    reviewsForTour 5 dbC2.reviews = [] ∧
    ∀ t ∈ (calcAverageRatings 5 dbC2).tours, t.id = 5 →
      t.ratingsQuantity = 0 ∧ t.ratingsAverage = 9 / 2 :=
  ⟨by decide, calcAverageRatings_empty_default 5 dbC2 (by decide)⟩

/-- Concrete store for the C4 input: one tour and one review with id 5. -/
def dbC4 : DB :=
  { tours := [⟨3, 1, 2, 0⟩], reviews := [⟨5, "a", 2, 0, 3, 9⟩] }

/-- Claim C4, settled against the code as a bug: an update or delete by id
whose pre fetch matches no review does not skip recomputation silently; the
post hook dereferences the absent this.r and the triggering mutation fails
with a null reference error. -/
theorem findOneAndDelete_missing_review_errors :
    findOneAndDelete 99 dbC4 = Except.error StoreError.nullReference ∧
    findOneAndUpdate 99 { review := none, rating := some 4, tour := none } dbC4 =
      Except.error StoreError.nullReference := by
  constructor
  · rfl
  · rfl

/-- Claim C7, settled against the code as a bug: the schema accepts a review
with no text body and no tour reference, because required is misspelled
rerquired on both fields; the rating range check and the user requirement do
hold. -/
theorem reviewSchemaValidate_missing_body_and_tour_accepted :
    reviewSchemaValidate { review := none, rating := some 3, tour := none, user := some 7 } = true ∧
    reviewSchemaValidate { review := some "a", rating := some 6, tour := some 1, user := some 7 } = false ∧
    reviewSchemaValidate { review := some "a", rating := some 3, tour := some 1, user := none } = false := by
  refine ⟨by decide, by decide, by decide⟩

/-- Claim C8, settled against the code as a bug: two reviews inserted at
different times, 5 and 100, receive the same default createdAt, because
Date.now() is evaluated once at schema construction rather than per
insertion. -/
theorem createdAtDefault_same_for_different_insertions :
    createdAtDefault 1000 5 = createdAtDefault 1000 100 ∧ (5 : Nat) ≠ 100 := by
  refine ⟨rfl, by decide⟩

/-- Claim C3: for every update or delete by id on an existing review — an
update under an arbitrary patch body, tour changing or not — the tour
reference handed to the post mutation recomputation is exactly the tour field
of the review captured by the cloned pre mutation findOne. -/
theorem findOneAnd_uses_prefetched_tour (rid : Nat) (db : DB) (rev : Review)
    (h : findReview rid db.reviews = some rev) :
    (∀ p : ReviewPatch, findOneAndUpdate rid p db =
        Except.ok (calcAverageRatings rev.tour (dbAfterUpdate rid p db))) ∧
    findOneAndDelete rid db =
      Except.ok (calcAverageRatings rev.tour (dbAfterDelete rid db)) := by
  constructor
  · intro p
    unfold findOneAndUpdate
    rw [h]
  · unfold findOneAndDelete
    rw [h]

/-- Concrete store for the C3 witness: tour 7 carries two reviews, id 1 with
rating 5 and id 2 with rating 3. -/
def dbC3 : DB :=
  { tours := [⟨7, 2, 4, 5⟩],
    reviews := [⟨1, "a", 5, 0, 7, 21⟩, ⟨2, "b", 3, 0, 7, 22⟩] }

/-- A plain rating edit: the update body sets rating 4 and nothing else. -/
def editRating4 : ReviewPatch := { review := none, rating := some 4, tour := none }

/-- Witness for claim C3 at the concrete store dbC3, both operations: editing
review 1 down to rating 4 recomputes via the pre fetched tour 7 and leaves
quantity 2 and average 7/2; deleting review 1 recomputes via the pre fetched
tour 7 and leaves quantity 1 and average 3, the rating of the surviving
review. -/
theorem findOneAnd_uses_prefetched_tour_witness :
    findReview 1 dbC3.reviews = some ⟨1, "a", 5, 0, 7, 21⟩ ∧
    ((∀ p : ReviewPatch, findOneAndUpdate 1 p dbC3 =
        Except.ok (calcAverageRatings 7 (dbAfterUpdate 1 p dbC3))) ∧
      findOneAndDelete 1 dbC3 =
        Except.ok (calcAverageRatings 7 (dbAfterDelete 1 dbC3))) ∧
    findOneAndUpdate 1 editRating4 dbC3 =
      Except.ok { tours := [⟨7, 2, 7 / 2, 5⟩],
                  reviews := [⟨1, "a", 4, 0, 7, 21⟩, ⟨2, "b", 3, 0, 7, 22⟩] } ∧
    findOneAndDelete 1 dbC3 =
      Except.ok { tours := [⟨7, 1, 3, 5⟩], reviews := [⟨2, "b", 3, 0, 7, 22⟩] } :=
  ⟨by decide,
   findOneAnd_uses_prefetched_tour 1 dbC3 ⟨1, "a", 5, 0, 7, 21⟩ (by decide),
   by with_unfolding_all rfl,
   by with_unfolding_all rfl⟩

/-- Claim C5: attempting to save a review for a pair of tour and user that
already occurs in the review store fails with the duplicate key error of the
unique index, and the failed attempt leaves the whole store, aggregates
included, unchanged. -/
theorem createReview_duplicate_pair_rejected (r : Review) (db : DB)
    (h : ∃ s ∈ db.reviews, s.tour = r.tour ∧ s.user = r.user) :
    createReview r db = Except.error StoreError.duplicateKey ∧
    runCreateReview r db = db := by
  have hb : hasDuplicate r db.reviews = true := by
    obtain ⟨s, hmem, ht, hu⟩ := h
    unfold hasDuplicate
    rw [List.any_eq_true]
    exact ⟨s, hmem, by simp [ht, hu]⟩
  constructor
  · unfold createReview
    rw [if_pos hb]
  · unfold runCreateReview createReview
    rw [if_pos hb]

/-- Concrete store for the C5 witness: user 10 already reviewed tour 1. -/
def dbC5 : DB :=
  { tours := [⟨1, 1, 4, 0⟩], reviews := [⟨1, "a", 4, 0, 1, 10⟩] }

/-- A second review by user 10 for tour 1, violating the unique index. -/
def dupReview : Review := ⟨9, "c", 5, 0, 1, 10⟩

/-- Witness for claim C5 at the concrete store dbC5. -/
theorem createReview_duplicate_pair_rejected_witness :
    (∃ s ∈ dbC5.reviews, s.tour = dupReview.tour ∧ s.user = dupReview.user) ∧
    createReview dupReview dbC5 = Except.error StoreError.duplicateKey ∧
    runCreateReview dupReview dbC5 = dbC5 :=
  ⟨by decide,
   (createReview_duplicate_pair_rejected dupReview dbC5 (by decide)).1,
   (createReview_duplicate_pair_rejected dupReview dbC5 (by decide)).2⟩

/-- Updating the aggregate fields through an id that matches no tour in the
store leaves the store unchanged. -/
theorem tourFindByIdAndUpdate_no_match (tourId : Nat) (q : Nat) (a : Rat)
    (l : List Tour) (h : ∀ t ∈ l, t.id ≠ tourId) :
    tourFindByIdAndUpdate tourId q a l = l := by
  induction l with
  | nil => rfl
  | cons x xs ih =>
    have hx : ¬ x.id = tourId := h x (List.mem_cons_self x xs)
    have hxs : tourFindByIdAndUpdate tourId q a xs = xs :=
      ih (fun t ht => h t (List.mem_cons_of_mem x ht))
    unfold tourFindByIdAndUpdate at hxs ⊢
    rw [List.map_cons, hxs, if_neg (by simpa using hx)]

/-- Claim C6: recomputation against a tour id that resolves to no tour in the
store completes (the embedded operation is total, hence raises no error) and
returns the store unchanged: nothing is written and no tour is created. -/
theorem calcAverageRatings_dangling_noop (tourId : Nat) (db : DB)
    (h : ∀ t ∈ db.tours, t.id ≠ tourId) :
    calcAverageRatings tourId db = db := by
  obtain ⟨q, a, hshape⟩ := calcAverageRatings_shape tourId db
  rw [hshape, tourFindByIdAndUpdate_no_match tourId q a db.tours h]

/-- Concrete store for the C6 witness: the only tour has id 1 while the
reviews reference the dangling tour id 42. -/
def dbC6 : DB :=
  { tours := [⟨1, 2, 3, 0⟩], reviews := [⟨1, "a", 5, 0, 42, 10⟩] }

/-- Witness for claim C6 at the concrete store dbC6. -/
theorem calcAverageRatings_dangling_noop_witness :
    (∀ t ∈ dbC6.tours, t.id ≠ 42) ∧ calcAverageRatings 42 dbC6 = dbC6 :=
  ⟨by decide, calcAverageRatings_dangling_noop 42 dbC6 (by decide)⟩

/-- Writing the aggregate fields of one tour id does not change what a lookup
for a different tour id finds. -/
theorem find_tourFindByIdAndUpdate_ne (tid t2 : Nat) (q : Nat) (a : Rat)
    (l : List Tour) (hne : tid ≠ t2) :
    (tourFindByIdAndUpdate tid q a l).find? (fun t => t.id == t2) =
      l.find? (fun t => t.id == t2) := by
  induction l with
  | nil => rfl
  | cons x xs ih =>
    unfold tourFindByIdAndUpdate at ih ⊢
    rw [List.map_cons]
    by_cases hx : x.id = tid
    · rw [if_pos (by simpa using hx)]
      have hxt2 : ¬ x.id = t2 := by rw [hx]; exact hne
      rw [List.find?_cons_of_neg _ (by simpa using hxt2),
        List.find?_cons_of_neg _ (by simpa using hxt2)]
      exact ih
    · rw [if_neg (by simpa using hx)]
      by_cases hx2 : x.id = t2
      · rw [List.find?_cons_of_pos _ (by simpa using hx2),
          List.find?_cons_of_pos _ (by simpa using hx2)]
      · rw [List.find?_cons_of_neg _ (by simpa using hx2),
          List.find?_cons_of_neg _ (by simpa using hx2)]
        exact ih

/-- Claim C10: an update that moves a review from tour rev.tour to a
different tour t2 triggers recomputation only for the pre update reference
rev.tour; the tour document of t2 is exactly what it was before the
operation, so its aggregates stay stale. -/
theorem findOneAndUpdate_stale_new_tour (rid : Nat) (p : ReviewPatch) (db : DB)
    (rev : Review) (t2 : Nat)
    (h : findReview rid db.reviews = some rev)
    (_hp : p.tour = some t2)
    (hne : rev.tour ≠ t2) :
    findOneAndUpdate rid p db =
      Except.ok (calcAverageRatings rev.tour (dbAfterUpdate rid p db)) ∧
    lookupTour t2 (calcAverageRatings rev.tour (dbAfterUpdate rid p db)) =
      lookupTour t2 db := by
  constructor
  · unfold findOneAndUpdate
    rw [h]
  · obtain ⟨q, a, hshape⟩ := calcAverageRatings_shape rev.tour (dbAfterUpdate rid p db)
    rw [hshape]
    unfold lookupTour
    exact find_tourFindByIdAndUpdate_ne rev.tour t2 q a db.tours hne

/-- Concrete store for the C10 witness: review 1 sits on tour 1; tour 2 still
carries its defaults. -/
def dbC10 : DB :=
  { tours := [⟨1, 1, 5, 0⟩, ⟨2, 0, 9 / 2, 0⟩],
    reviews := [⟨1, "a", 5, 0, 1, 10⟩] }

/-- The update body moving review 1 onto tour 2. -/
def moveToTour2 : ReviewPatch := { review := none, rating := none, tour := some 2 }

/-- Witness for claim C10 at the concrete store dbC10: the operation
recomputes tour 1 only, and tour 2 keeps its stale default aggregates even
though it now owns the moved review. -/
theorem findOneAndUpdate_stale_new_tour_witness :
    findReview 1 dbC10.reviews = some ⟨1, "a", 5, 0, 1, 10⟩ ∧
    moveToTour2.tour = some 2 ∧
    (1 : Nat) ≠ 2 ∧
    (findOneAndUpdate 1 moveToTour2 dbC10 =
        Except.ok (calcAverageRatings 1 (dbAfterUpdate 1 moveToTour2 dbC10)) ∧
      lookupTour 2 (calcAverageRatings 1 (dbAfterUpdate 1 moveToTour2 dbC10)) =
        lookupTour 2 dbC10) ∧
    lookupTour 2 (calcAverageRatings 1 (dbAfterUpdate 1 moveToTour2 dbC10)) =
      some ⟨2, 0, 9 / 2, 0⟩ :=
  ⟨by decide, by decide, by decide,
   findOneAndUpdate_stale_new_tour 1 moveToTour2 dbC10 ⟨1, "a", 5, 0, 1, 10⟩ 2
     (by decide) (by decide) (by decide),
   by with_unfolding_all rfl⟩

end Natours
